import Mathlib

/-!
Shallow embedding of the p2ee field declaration / validation engine
(src/p2ee/orm/models/base/fields/__init__.py) and the schema composer
(src/p2ee/orm/models/base/docs/meta.py), together with theorems settling
the frozen claims about them.

Modelling conventions:
  * Python values are modelled by the inductive `PyVal`.  Python floats are
    modelled by their mathematical value as a rational (no claim depends on
    floating point rounding); datetimes by an integer timestamp; tuples and
    sets as container *inputs* are not modelled (no claim exercises them,
    `PyVal.list` covers the container claims).
  * Python exceptions become the inductive `Err`; the formatted message
    strings are kept only where a claim depends on them, otherwise the
    format placeholders are abstracted into fixed strings.
  * `isinstance(value, self._allowed_types)` is modelled by a Boolean
    predicate stored in the field data.
  * zero-argument producers (callable defaults and bounds) are modelled as
    functions from an abstract external environment `Env`, which a
    validation call receives; this captures that they are re-evaluated on
    every call.
-/

/-- Model of a Python runtime value, restricted to the types the field
engine manipulates. -/
inductive PyVal where
  | none
  | bool (b : Bool)
  | int (n : Int)
  | float (q : Rat)
  | str (s : String)
  | dt (t : Int)
  | list (xs : List PyVal)
  | dict (entries : List (PyVal × PyVal))
deriving Repr

/-- Structural equality on PyVal, modelling the Python == used by
membership tests. -/
def PyVal.beq : PyVal → PyVal → Bool
  | .none, .none => true
  | .bool a, .bool b => a == b
  | .int a, .int b => a == b
  | .float a, .float b => a == b
  | .str a, .str b => a == b
  | .dt a, .dt b => a == b
  | .list xs, .list ys => beqList xs ys
  | .dict es, .dict fs => beqEntries es fs
  | _, _ => false
where
  beqList : List PyVal → List PyVal → Bool
    | [], [] => true
    | x :: xs, y :: ys => PyVal.beq x y && beqList xs ys
    | _, _ => false
  beqEntries : List (PyVal × PyVal) → List (PyVal × PyVal) → Bool
    | [], [] => true
    | (k, v) :: xs, (l, w) :: ys => PyVal.beq k l && PyVal.beq v w && beqEntries xs ys
    | _, _ => false

instance : BEq PyVal := ⟨PyVal.beq⟩

/-- Python truthiness for the modelled values. -/
def PyVal.truthy : PyVal → Bool
  | .none => false
  | .bool b => b
  | .int n => n != 0
  | .float q => q != 0
  | .str s => s != ""
  | .dt _ => true
  | .list xs => !xs.isEmpty
  | .dict es => !es.isEmpty

/-- Model of the Python identity test value is None. -/
def PyVal.isNone : PyVal → Bool
  | .none => true
  | _ => false

def PyVal.isList : PyVal → Bool
  | .list _ => true
  | _ => false

def PyVal.isDict : PyVal → Bool
  | .dict _ => true
  | _ => false

def PyVal.isDt : PyVal → Bool
  | .dt _ => true
  | _ => false

def PyVal.isStr : PyVal → Bool
  | .str _ => true
  | _ => false

/-- Model of isinstance(v, (int, long)); Python bool is a subclass of int. -/
def PyVal.isIntLike : PyVal → Bool
  | .int _ => true
  | .bool _ => true
  | _ => false

def PyVal.toList : PyVal → List PyVal
  | .list xs => xs
  | _ => []

def PyVal.toDict : PyVal → List (PyVal × PyVal)
  | .dict es => es
  | _ => []

/-- Model of the Python exceptions the engine raises.
`invalidFieldValue` is InvalidFieldValueException(message, field, value),
`invalidFieldDefinition` is InvalidFieldDefinition(message, field),
`invalidField` is InvalidFieldException; `typeError`, `valueError` and
`attributeError` are the corresponding unstructured built-in exceptions. -/
inductive Err where
  | invalidFieldValue (message : String) (field : Option String) (value : PyVal)
  | invalidField (message : String) (field : Option String) (missing : Bool)
  | invalidFieldDefinition (message : String) (field : Option String)
  | typeError (message : String)
  | valueError (message : String)
  | attributeError (message : String)
deriving Repr

/-- Abstract external environment read by zero-argument producers
(callable defaults / bounds); a fresh environment is passed to every
validation call, modelling per-call re-evaluation. -/
abbrev Env := Nat

/-- A literal default value or a zero-argument callable producing one. -/
inductive DefaultSpec where
  | value (v : PyVal)
  | producer (g : Env → PyVal)

/-- Model of an arbitrary BaseField instance used as an element / key /
value validator: its validate method together with the display name the
multi-validator loop records on failure (document name for EmbeddedField,
class name otherwise). -/
structure Validator where
  displayName : String
  validate : PyVal → Except Err PyVal

/-- An argument at a position where a validator instance is expected: either
an actual BaseField instance or some other Python value. -/
inductive ElementArg where
  | validator (v : Validator)
  | nonField (v : PyVal)

/-- Python truthiness of an ElementArg (BaseField instances are objects,
hence truthy). -/
def ElementArg.truthy : ElementArg → Bool
  | .validator _ => true
  | .nonField v => v.truthy

def ElementArg.isValidator : ElementArg → Bool
  | .validator _ => true
  | .nonField _ => false

/-- Display name recorded by the multi-validator loop for an element
validator. -/
def ElementArg.displayNameOf : ElementArg → String
  | .validator v => v.displayName
  | .nonField _ => ""

/-- Data shared by every field descriptor: BaseField.__init__ stores the
default, choices, required flag, field name and allowed types. -/
structure BaseFieldData where
  _default : DefaultSpec
  _choices : Option (List PyVal)
  _required : Bool
  _field_name : Option String
  _allowed_types : PyVal → Bool

/-- Embedding of the BaseField.field_name property setter: the assignment
only takes effect while the stored name is still None (write-once). -/
def set_field_name (f : BaseFieldData) (name : String) : BaseFieldData :=
  if f._field_name = Option.none then { f with _field_name := some name } else f

/-- Embedding of BaseField._raise_check_failure: builds the
InvalidFieldValueException carrying the field name and offending value;
the default type-mismatch message format is abstracted to a fixed string. -/
def raise_check_failure (f : BaseFieldData) (value : PyVal) (message : Option String) : Err :=
  .invalidFieldValue
    (message.getD "Value must be of type expected_type, passed type: value_type")
    f._field_name value

/-- Embedding of BaseField._instance_check: isinstance test against the
allowed types. -/
def instance_check (f : BaseFieldData) (value : PyVal) : Except Err PyVal :=
  if f._allowed_types value then .ok value
  else .error (raise_check_failure f value Option.none)

/-- Embedding of the body of BaseField.validate, parameterised by the
dynamically dispatched _instance_check of the actual field class:
instance check, then required / None check, then choices membership. -/
def validateWith (ic : PyVal → Except Err PyVal) (f : BaseFieldData) (value : PyVal) :
    Except Err PyVal :=
  match ic value with
  | .error e => .error e
  | .ok value =>
    if f._required && value.isNone then
      .error (.invalidFieldValue "Value cannot be None" f._field_name value)
    else
      match f._choices with
      | some cs =>
        if cs.contains value then .ok value
        else .error (.invalidFieldValue "Value must be one of the permitted values"
                      f._field_name value)
      | Option.none => .ok value

/-- Embedding of BaseField.validate (instance check not overridden). -/
def BaseField.validate (f : BaseFieldData) (value : PyVal) : Except Err PyVal :=
  validateWith (instance_check f) f value

/-- Embedding of the classmethod BaseField._validate_validator: a truthy
argument that is not a BaseField instance is a definition error; None and
falsy values pass through. -/
def BaseField.validate_validator (v : Option ElementArg) : Except Err (Option ElementArg) :=
  match v with
  | Option.none => .ok Option.none
  | some e =>
    if e.truthy && !e.isValidator then
      .error (.invalidFieldDefinition "Element Validator should be an instance of BaseField"
               Option.none)
    else .ok (some e)

/-- A bound (min_value / max_value) of a BoundedField: a literal value
(None meaning no bound, modelled by `.value .none`) or a zero-argument
callable producing the bound. -/
inductive BoundSpec where
  | value (v : PyVal)
  | producer (g : Env → PyVal)

/-- Embedding of the BoundedField.min_value / max_value properties:
a callable bound is invoked on every access, so its result depends on the
environment of the current validation call. -/
def resolveBound : BoundSpec → Env → PyVal
  | .value v, _ => v
  | .producer g, e => g e

/-- Data of BoundedField: the base field data plus the two stored bounds. -/
structure BoundedFieldData where
  toBase : BaseFieldData
  _min_value : BoundSpec
  _max_value : BoundSpec

/-- Model of the Python 2 comparison `a < b` for the value types bounds are
used with (numbers and datetimes; None sorts below every other value). -/
def pyLt : PyVal → PyVal → Bool
  | .int a, .int b => a < b
  | .float a, .float b => a < b
  | .int a, .float b => (a : Rat) < b
  | .float a, .int b => a < (b : Rat)
  | .dt a, .dt b => a < b
  | .none, .none => false
  | .none, _ => true
  | _, .none => false
  | _, _ => false

/-- Python 2 `a > b` coincides with `b < a` on the types modelled here. -/
def pyGt (a b : PyVal) : Bool := pyLt b a

/-- Embedding of BoundedField._min_check: skipped when the resolved bound
is None, otherwise a strict comparison against the resolved bound. -/
def min_check (f : BoundedFieldData) (e : Env) (value : PyVal) : Except Err Unit :=
  let m := resolveBound f._min_value e
  if !m.isNone && pyLt value m then
    .error (raise_check_failure f.toBase value (some "Value is less than min value"))
  else .ok ()

/-- Embedding of BoundedField._max_check. -/
def max_check (f : BoundedFieldData) (e : Env) (value : PyVal) : Except Err Unit :=
  let m := resolveBound f._max_value e
  if !m.isNone && pyGt value m then
    .error (raise_check_failure f.toBase value (some "Value is greater than max value"))
  else .ok ()

/-- Embedding of BoundedField.validate, parameterised by the dynamically
dispatched instance check of the concrete field class: base pipeline, then
min check, then max check. -/
def boundedValidateWith (ic : PyVal → Except Err PyVal) (f : BoundedFieldData) (e : Env)
    (value : PyVal) : Except Err PyVal :=
  match validateWith ic f.toBase value with
  | .error err => .error err
  | .ok value =>
    match min_check f e value with
    | .error err => .error err
    | .ok _ =>
      match max_check f e value with
      | .error err => .error err
      | .ok _ => .ok value

/-- Embedding of IntField._instance_check: a float with an integral value
is narrowed to an integer, then the generic instance check runs against
(int, long). -/
def intFieldIC (f : BaseFieldData) (value : PyVal) : Except Err PyVal :=
  let value := match value with
    | .float q => if q.den = 1 then .int q.num else .float q
    | v => v
  instance_check f value

/-- Embedding of IntField.validate (BoundedField.validate with the IntField
instance check). -/
def IntField.validate (f : BoundedFieldData) (e : Env) (value : PyVal) : Except Err PyVal :=
  boundedValidateWith (intFieldIC f.toBase) f e value

/-- Model of the external dateutil parse function: a string either parses
to a datetime (abstracted by the parseStr argument, which also absorbs the
ignoretz flag) or raises ValueError; any non-string input makes the parser
raise TypeError (it requires a string or character stream). -/
def parserParse (parseStr : String → Option Int) : PyVal → Except Err PyVal
  | .str s =>
    match parseStr s with
    | some t => .ok (.dt t)
    | Option.none => .error (.valueError "Unknown string format")
  | _ => .error (.typeError "Parser must be a string or character stream")

/-- Embedding of DateTimeField._instance_check: a value that is neither
None nor a datetime is fed to the permissive parser; only ValueError is
caught and converted by _raise_check_failure, any other parser exception
propagates; finally the generic instance check against datetime runs. -/
def dtFieldIC (parseStr : String → Option Int) (f : BaseFieldData) (value : PyVal) :
    Except Err PyVal :=
  if !value.isNone && !value.isDt then
    match parserParse parseStr value with
    | .ok parsed => instance_check f parsed
    | .error (.valueError _) => .error (raise_check_failure f value Option.none)
    | .error e => .error e
  else instance_check f value

/-- Embedding of DateTimeField.validate (BoundedField.validate with the
DateTimeField instance check). -/
def DateTimeField.validate (parseStr : String → Option Int) (f : BoundedFieldData) (e : Env)
    (value : PyVal) : Except Err PyVal :=
  boundedValidateWith (dtFieldIC parseStr f.toBase) f e value

/-- Container type configured on a MultiEmbeddedListField (the Python set
container is modelled as a duplicate-free list; add keeps first insertion
order). -/
inductive ContainerType where
  | list
  | set
deriving Repr, DecidableEq

/-- Data of MultiEmbeddedListField: base field data (allowed types
list/tuple/set, choices never forwarded), the validated element validators,
the item cap and the configured container type. -/
structure MELField where
  toBase : BaseFieldData
  element_validators : List ElementArg
  max_items : Option Int
  container_type : ContainerType

/-- Embedding of MultiEmbeddedListField.add_value: append for a list
container, set insertion for a set container (and silently nothing for any
other configured container type, which the model does not include). -/
def add_value (ct : ContainerType) (container : List PyVal) (value : PyVal) : List PyVal :=
  match ct with
  | .list => container ++ [value]
  | .set => if container.contains value then container else container ++ [value]

/-- Embedding of the override MultiEmbeddedListField._validate_validator:
an argument that is neither None nor a list is a definition error; a None
argument passes the first test but the following for-loop over it raises
TypeError; the elements of a list are individually checked with the
BaseField classmethod. -/
inductive ValidatorsArg where
  | pynone
  | notAList (v : PyVal)
  | list (vs : List ElementArg)

def MultiEmbeddedListField.validate_validator (arg : ValidatorsArg) :
    Except Err (List ElementArg) :=
  match arg with
  | .notAList _ =>
    .error (.invalidFieldDefinition "Element Validators should be a list of validator"
             Option.none)
  | .pynone => .error (.typeError "NoneType object is not iterable")
  | .list vs =>
    match vs.mapM (fun v => BaseField.validate_validator (some v)) with
    | .error e => .error e
    | .ok _ => .ok vs

/-- Embedding of MultiEmbeddedListField.__init__: the element validators are
checked (raising as above), max_items and container_type are stored, and the
base constructor is called with allowed_types (list, tuple, set) and without
the choices argument (it is accepted and discarded). -/
def MultiEmbeddedListField.init (element_validators : ValidatorsArg)
    (choices : Option (List PyVal)) (max_items : Option Int)
    (container_type : ContainerType) (default : DefaultSpec) (required : Bool)
    (field_name : Option String) : Except Err MELField :=
  match MultiEmbeddedListField.validate_validator element_validators with
  | .error e => .error e
  | .ok evs =>
    .ok { toBase := { _default := default, _choices := Option.none, _required := required,
                      _field_name := field_name, _allowed_types := PyVal.isList },
          element_validators := evs, max_items := max_items,
          container_type := container_type }

/-- Embedding of the inner candidate loop of MultiEmbeddedListField.validate:
try each element validator in declared order; a success breaks out of the
loop; an InvalidFieldValueException records the candidate display name and
continues; any other exception propagates; calling validate on a stored
non-field raises AttributeError. -/
def tryValidators (evs : List ElementArg) (names : List String) (val : PyVal) :
    Except Err (Option PyVal × List String) :=
  match evs with
  | [] => .ok (Option.none, names)
  | .validator ev :: rest =>
    match ev.validate val with
    | .ok v => .ok (some v, names)
    | .error (.invalidFieldValue _ _ _) => tryValidators rest (names ++ [ev.displayName]) val
    | .error e => .error e
  | .nonField _ :: _ => .error (.attributeError "object has no attribute validate")

/-- Embedding of the outer element loop of MultiEmbeddedListField.validate:
for each element run the candidate loop; if the resulting validated value is
truthy it is added to the container, otherwise (None after exhausting all
candidates, or a falsy successful value) the whole validation fails with an
InvalidFieldDefinition whose message joins the recorded candidate names,
which accumulate across elements. -/
def processElements (f : MELField) (vals : List PyVal) (container : List PyVal)
    (names : List String) : Except Err (List PyVal) :=
  match vals with
  | [] => .ok container
  | val :: rest =>
    match tryValidators f.element_validators names val with
    | .error e => .error e
    | .ok (vv, names2) =>
      match vv with
      | some v =>
        if v.truthy then
          processElements f rest (add_value f.container_type container v) names2
        else
          .error (.invalidFieldDefinition
                   ("Value must be one of the permitted types :" ++
                     String.intercalate ", " names2) f.toBase._field_name)
      | Option.none =>
        .error (.invalidFieldDefinition
                 ("Value must be one of the permitted types :" ++
                   String.intercalate ", " names2) f.toBase._field_name)

/-- Model of building the configured container from a list value in the
no-validators branch (the identity for a list container, set construction
for a set container). -/
def containerOf (ct : ContainerType) (xs : List PyVal) : List PyVal :=
  match ct with
  | .list => xs
  | .set => xs.foldl (fun acc x => if acc.contains x then acc else acc ++ [x]) []

/-- Embedding of MultiEmbeddedListField.validate: instance check, then either
the per-element candidate loop (when element validators are declared) or a
plain container conversion, then the truthy max_items cardinality check, and
finally the inherited BaseField.validate on the built container. -/
def MultiEmbeddedListField.validate (f : MELField) (value : PyVal) : Except Err PyVal :=
  match instance_check f.toBase value with
  | .error e => .error e
  | .ok value =>
    let afterLoop : Except Err (List PyVal) :=
      if !f.element_validators.isEmpty then
        processElements f value.toList [] []
      else
        .ok (containerOf f.container_type value.toList)
    match afterLoop with
    | .error e => .error e
    | .ok container =>
      match f.max_items with
      | some m =>
        if m != 0 && (container.length : Int) > m then
          .error (raise_check_failure f.toBase (.int container.length)
                   (some "Too many items in list"))
        else validateWith (instance_check f.toBase) f.toBase (.list container)
      | Option.none => validateWith (instance_check f.toBase) f.toBase (.list container)

/-- Embedding of ListField.__init__: a truthy element validator is wrapped
into a singleton list, a falsy or missing one yields the empty list, and the
MultiEmbeddedListField constructor is called (the choices argument is
forwarded there, where it is discarded). -/
def ListField.init (element_validator : Option ElementArg) (choices : Option (List PyVal))
    (max_items : Option Int) (container_type : ContainerType) (default : DefaultSpec)
    (required : Bool) (field_name : Option String) : Except Err MELField :=
  let evs : ValidatorsArg := .list
    (match element_validator with
     | some e => if e.truthy then [e] else []
     | Option.none => [])
  MultiEmbeddedListField.init evs choices max_items container_type default required field_name

/-- Data of DictField: base field data (allowed type dict, choices never
forwarded) plus the optional key and value validators. -/
structure DictFieldData where
  toBase : BaseFieldData
  key_validator : Option ElementArg
  value_validator : Option ElementArg

/-- Embedding of DictField.__init__: key and value validators are checked
with the BaseField classmethod, and the base constructor is called with
allowed_types dict and without the choices argument (accepted, discarded). -/
def DictField.init (key_validator value_validator : Option ElementArg)
    (choices : Option (List PyVal)) (default : DefaultSpec) (required : Bool)
    (field_name : Option String) : Except Err DictFieldData :=
  match BaseField.validate_validator key_validator with
  | .error e => .error e
  | .ok kv =>
    match BaseField.validate_validator value_validator with
    | .error e => .error e
    | .ok vv =>
      .ok { toBase := { _default := default, _choices := Option.none, _required := required,
                        _field_name := field_name, _allowed_types := PyVal.isDict },
            key_validator := kv, value_validator := vv }

/-- Application of a stored optional key / value validator to one entry
component: None passes the component through, a BaseField delegates to its
validate, anything else raises AttributeError at the call site. -/
def applyEntryValidator (ov : Option ElementArg) (v : PyVal) : Except Err PyVal :=
  match ov with
  | Option.none => .ok v
  | some (.validator f) => f.validate v
  | some (.nonField _) => .error (.attributeError "object has no attribute validate")

/-- Python dict assignment value_dict[k] = v over an association-list
model: a later assignment to an existing key overwrites in place. -/
def upsert (entries : List (PyVal × PyVal)) (k v : PyVal) : List (PyVal × PyVal) :=
  match entries with
  | [] => [(k, v)]
  | (k0, v0) :: rest =>
    if k0 == k then (k0, v) :: rest else (k0, v0) :: upsert rest k v

/-- Embedding of the entry loop of DictField.validate. -/
def processEntries (f : DictFieldData) (entries : List (PyVal × PyVal))
    (acc : List (PyVal × PyVal)) : Except Err (List (PyVal × PyVal)) :=
  match entries with
  | [] => .ok acc
  | (k, v) :: rest =>
    match applyEntryValidator f.key_validator k with
    | .error e => .error e
    | .ok k2 =>
      match applyEntryValidator f.value_validator v with
      | .error e => .error e
      | .ok v2 => processEntries f rest (upsert acc k2 v2)

/-- Embedding of DictField.validate: instance check, then (when a key or
value validator is present) revalidation of every entry into a fresh dict,
then the inherited BaseField.validate on the result. -/
def DictField.validate (f : DictFieldData) (value : PyVal) : Except Err PyVal :=
  match instance_check f.toBase value with
  | .error e => .error e
  | .ok value =>
    let rebuilt : Except Err (List (PyVal × PyVal)) :=
      if f.key_validator.isSome || f.value_validator.isSome then
        processEntries f value.toDict []
      else .ok value.toDict
    match rebuilt with
    | .error e => .error e
    | .ok entries => validateWith (instance_check f.toBase) f.toBase (.dict entries)

/-- A value bound to a name in the class dictionary handed to the
metaclass: a BaseField descriptor or anything else. -/
inductive ClassAttr where
  | field (f : BaseFieldData)
  | other

/-- The scan loop of DocumentMetaClass.__init__: every dictionary entry
whose value is a BaseField gets its field_name set to the attribute name
(write-once) and becomes a schema entry, in dictionary order. -/
def scanOwnFields (dictionary : List (String × ClassAttr)) : List (String × BaseFieldData) :=
  dictionary.filterMap fun kv =>
    match kv.2 with
    | .field f => some (kv.1, set_field_name f kv.1)
    | .other => Option.none

/-- The schema and flexibility flag set on a class by the metaclass. -/
structure ComposedSchema where
  _schema : List (String × BaseFieldData)
  _schema_flexible : Bool

/-- Embedding of DocumentMetaClass.__init__ (schema composition):
declaredFlexible models dictionary.get applied to the _schema_flexible key
with default True; parentSchema / parentFlexible model the _schema and
_schema_flexible attributes of the first superclass in the MRO, None when
the attribute lookup raises AttributeError (each guarded by its own
try/except, hence two separate options); the parent schema entries whose
keys are not already present are appended, and the flag is the Python
conjunction of the parent flag and the own flag. -/
def composeSchema (dictionary : List (String × ClassAttr)) (declaredFlexible : Option Bool)
    (parentSchema : Option (List (String × BaseFieldData)))
    (parentFlexible : Option Bool) : ComposedSchema :=
  let schema_flexible := declaredFlexible.getD true
  let own := scanOwnFields dictionary
  let schema :=
    match parentSchema with
    | some ps => own ++ ps.filter (fun kv => (own.lookup kv.1).isNone)
    | Option.none => own
  let flex :=
    match parentFlexible with
    | some pf => pf && schema_flexible
    | Option.none => schema_flexible
  { _schema := schema, _schema_flexible := flex }

/-! Helper lemmas shared by several claim theorems. -/

theorem set_field_name_isSome (f : BaseFieldData) (n : String) :
    ((set_field_name f n)._field_name).isSome = true := by
  cases hf : f._field_name <;> simp [set_field_name, hf]

theorem scanOwnFields_isSome (d : List (String × ClassAttr)) :
    ∀ kv ∈ scanOwnFields d, (kv.2._field_name).isSome = true := by
  intro kv hkv
  simp only [scanOwnFields, List.mem_filterMap] at hkv
  obtain ⟨a, _, ha⟩ := hkv
  cases hv : a.2 with
  | field g =>
    rw [hv] at ha
    cases ha
    exact set_field_name_isSome g a.1
  | other => rw [hv] at ha; cases ha

theorem lookup_append_some {α β : Type} [BEq α] (l₁ l₂ : List (α × β)) (k : α) (x : β)
    (h : l₁.lookup k = some x) : (l₁ ++ l₂).lookup k = some x := by
  induction l₁ with
  | nil => simp [List.lookup] at h
  | cons a l ih =>
    obtain ⟨k1, v1⟩ := a
    simp only [List.cons_append, List.lookup] at h ⊢
    cases hk : (k == k1) with
    | true => rw [hk] at h; exact h
    | false => rw [hk] at h; exact ih h

theorem scanOwnFields_lookup (d : List (String × ClassAttr)) (k : String) (f : BaseFieldData)
    (h : d.lookup k = some (.field f)) :
    (scanOwnFields d).lookup k = some (set_field_name f k) := by
  induction d with
  | nil => simp [List.lookup] at h
  | cons a d ih =>
    obtain ⟨k1, v1⟩ := a
    simp only [List.lookup] at h
    cases hk : (k == k1) with
    | true =>
      rw [hk] at h
      cases h
      have hks : k = k1 := by simpa using hk
      subst hks
      simp [scanOwnFields, List.lookup]
    | false =>
      rw [hk] at h
      cases v1 with
      | field g => simp [scanOwnFields, List.lookup, hk]; exact ih h
      | other => simpa [scanOwnFields] using ih h

theorem scanOwnFields_nil (d : List (String × ClassAttr))
    (h : ∀ kv ∈ d, kv.2 = ClassAttr.other) : scanOwnFields d = [] := by
  induction d with
  | nil => rfl
  | cons a d ih =>
    have ha := h a (List.mem_cons_self a d)
    simp only [scanOwnFields, List.filterMap_cons, ha]
    exact ih fun kv hkv => h kv (List.mem_cons_of_mem a hkv)

/-- A plain unnamed base field used to instantiate witnesses. -/
def sampleBase : BaseFieldData :=
  { _default := .value .none, _choices := Option.none, _required := false,
    _field_name := Option.none, _allowed_types := fun _ => true }

/-- A base field whose field_name was already assigned. -/
def namedBase : BaseFieldData := { sampleBase with _field_name := some "a" }

/-- C3: a field declared directly on a type wins over a same-named parent
field (its own descriptor, with its name set, is what the merged schema
yields); a type declaring no fields of its own ends up with exactly the
parent field set; a parent without a composed schema is treated as empty. -/
theorem C3_schema_merge_precedence :
    (∀ (d : List (String × ClassAttr)) (df : Option Bool)
        (ps : Option (List (String × BaseFieldData))) (pf : Option Bool)
        (k : String) (f : BaseFieldData),
      d.lookup k = some (.field f) →
      ((composeSchema d df ps pf)._schema).lookup k = some (set_field_name f k)) ∧
    (∀ (d : List (String × ClassAttr)) (df : Option Bool)
        (psl : List (String × BaseFieldData)) (pf : Option Bool),
      (∀ kv ∈ d, kv.2 = ClassAttr.other) →
      (composeSchema d df (some psl) pf)._schema = psl) ∧
    (∀ (d : List (String × ClassAttr)) (df : Option Bool) (pf : Option Bool),
      (composeSchema d df Option.none pf)._schema = scanOwnFields d) := by
  refine ⟨?_, ?_, ?_⟩
  · intro d df ps pf k f h
    have hown := scanOwnFields_lookup d k f h
    cases ps with
    | none => simpa [composeSchema] using hown
    | some psl =>
      simp only [composeSchema]
      exact lookup_append_some _ _ _ _ hown
  · intro d df psl pf h
    have hnil := scanOwnFields_nil d h
    simp [composeSchema, hnil, List.lookup]
  · intro d df pf
    simp [composeSchema]

/-- C3 witness: a child redeclaring x keeps its own descriptor over the
parent descriptor of the same name, and a child with no own fields gets
exactly the parent schema. -/
theorem C3_schema_merge_precedence_witness :
    ((composeSchema [("x", .field sampleBase)] Option.none
        (some [("x", namedBase), ("y", namedBase)]) Option.none)._schema).lookup "x" =
      some (set_field_name sampleBase "x") ∧
    (composeSchema [("z", .other)] Option.none
        (some [("x", namedBase), ("y", namedBase)]) Option.none)._schema =
      [("x", namedBase), ("y", namedBase)] := by
  constructor
  · exact C3_schema_merge_precedence.1 [("x", .field sampleBase)] Option.none
      (some [("x", namedBase), ("y", namedBase)]) Option.none "x" sampleBase rfl
  · exact C3_schema_merge_precedence.2.1 [("z", .other)] Option.none
      [("x", namedBase), ("y", namedBase)] Option.none
      (by intro kv hkv; simp at hkv; rw [hkv])

/-- C4: the composed schema_flexible flag is the conjunction of the own
declared flag (default true when absent) and the parent computed flag
(default true when the parent has none); in particular an inflexible parent
forces an inflexible child and an explicit false on the child wins over a
flexible parent. -/
theorem C4_flexibility_flag (d : List (String × ClassAttr)) (df : Option Bool)
    (ps : Option (List (String × BaseFieldData))) (pf : Option Bool) :
    (composeSchema d df ps pf)._schema_flexible = (pf.getD true && df.getD true) := by
  cases pf <;> simp [composeSchema]

/-- C5: field_name is write-once (an assignment after the first is a no-op
keeping the first assigned name), and after schema composition every field
in the schema carries a non-null field_name provided the already-composed
parent schema does. -/
theorem C5_field_name_write_once :
    (∀ (f : BaseFieldData) (n m : String), f._field_name = some n → set_field_name f m = f) ∧
    (∀ (f : BaseFieldData) (n m : String),
      set_field_name (set_field_name f n) m = set_field_name f n) ∧
    (∀ (d : List (String × ClassAttr)) (df : Option Bool)
        (ps : Option (List (String × BaseFieldData))) (pf : Option Bool),
      (∀ kv ∈ ps.getD [], (kv.2._field_name).isSome = true) →
      ∀ kv ∈ (composeSchema d df ps pf)._schema, (kv.2._field_name).isSome = true) := by
  refine ⟨?_, ?_, ?_⟩
  · intro f n m h
    simp [set_field_name, h]
  · intro f n m
    cases hf : f._field_name <;> simp [set_field_name, hf]
  · intro d df ps pf hps kv hkv
    cases ps with
    | none =>
      simp only [composeSchema] at hkv
      exact scanOwnFields_isSome d kv hkv
    | some psl =>
      simp only [composeSchema, List.mem_append] at hkv
      cases hkv with
      | inl h => exact scanOwnFields_isSome d kv h
      | inr h =>
        exact hps kv (by simpa using List.mem_of_mem_filter h)

/-- C5 witness: a named descriptor keeps its first name under a second
assignment, and a concrete composition over a named parent schema yields
only named fields. -/
theorem C5_field_name_write_once_witness :
    set_field_name namedBase "b" = namedBase ∧
    (∀ kv ∈ (composeSchema [("x", .field sampleBase)] Option.none
        (some [("y", namedBase)]) Option.none)._schema, (kv.2._field_name).isSome = true) := by
  constructor
  · exact C5_field_name_write_once.1 namedBase "a" "b" rfl
  · exact C5_field_name_write_once.2.2 [("x", .field sampleBase)] Option.none
      (some [("y", namedBase)]) Option.none
      (by intro kv hkv; simp at hkv; rw [hkv]; rfl)

/-- C7: a required field rejects a value that coerced to None with a
value-invalid error, and a non-required field accepts None (returning None)
whenever the coercion accepts it and None passes the choices membership. -/
theorem C7_required_none_handling (f : BaseFieldData) (ic : PyVal → Except Err PyVal)
    (v : PyVal) (hic : ic v = .ok .none) :
    (f._required = true →
      validateWith ic f v =
        .error (.invalidFieldValue "Value cannot be None" f._field_name .none)) ∧
    (f._required = false →
      (f._choices = Option.none ∨ ∃ cs, f._choices = some cs ∧ cs.contains .none = true) →
      validateWith ic f v = .ok .none) := by
  constructor
  · intro hreq
    simp [validateWith, hic, hreq, PyVal.isNone]
  · intro hreq hch
    cases hch with
    | inl h => simp [validateWith, hic, hreq, h]
    | inr h =>
      obtain ⟨cs, hcs, hmem⟩ := h
      simp [validateWith, hic, hreq, hcs, hmem]

/-- C7 witness: a non-required all-accepting field validates None to None,
and the same field marked required rejects None. -/
theorem C7_required_none_handling_witness :
    validateWith (instance_check sampleBase) sampleBase .none = .ok .none ∧
    validateWith (instance_check { sampleBase with _required := true })
        { sampleBase with _required := true } .none =
      .error (.invalidFieldValue "Value cannot be None" Option.none .none) := by
  constructor
  · exact (C7_required_none_handling sampleBase (instance_check sampleBase) .none rfl).2
      rfl (Or.inl rfl)
  · exact (C7_required_none_handling { sampleBase with _required := true }
      (instance_check { sampleBase with _required := true }) .none rfl).1 rfl

/-- C6: the bounded range check is strict against the bounds resolved at
the current call (so callable bounds are re-evaluated per call): a value
strictly below the resolved min or strictly above the resolved max fails
with a value-invalid error, a value equal to the present bound succeeds,
and an absent bound skips the corresponding check. -/
theorem C6_bounded_range_check (f : BoundedFieldData) (ic : PyVal → Except Err PyVal)
    (e : Env) (v : PyVal) (n : Int)
    (hbase : validateWith ic f.toBase v = .ok (.int n)) :
    (∀ m : Int, resolveBound f._min_value e = .int m → n < m →
      boundedValidateWith ic f e v =
        .error (.invalidFieldValue "Value is less than min value"
                 f.toBase._field_name (.int n))) ∧
    (∀ m : Int, resolveBound f._min_value e = .none →
      resolveBound f._max_value e = .int m → m < n →
      boundedValidateWith ic f e v =
        .error (.invalidFieldValue "Value is greater than max value"
                 f.toBase._field_name (.int n))) ∧
    (resolveBound f._min_value e = .int n → resolveBound f._max_value e = .none →
      boundedValidateWith ic f e v = .ok (.int n)) ∧
    (resolveBound f._min_value e = .none → resolveBound f._max_value e = .int n →
      boundedValidateWith ic f e v = .ok (.int n)) ∧
    (resolveBound f._min_value e = .none → resolveBound f._max_value e = .none →
      boundedValidateWith ic f e v = .ok (.int n)) ∧
    (∀ (g : Env → PyVal) (m : Int), f._min_value = .producer g → g e = .int m → n < m →
      boundedValidateWith ic f e v =
        .error (.invalidFieldValue "Value is less than min value"
                 f.toBase._field_name (.int n))) := by
  refine ⟨?_, ?_, ?_, ?_, ?_, ?_⟩
  · intro m hmin hlt
    simp [boundedValidateWith, hbase, min_check, hmin, PyVal.isNone, pyLt, hlt,
      raise_check_failure]
  · intro m hmin hmax hlt
    simp [boundedValidateWith, hbase, min_check, max_check, hmin, hmax, PyVal.isNone,
      pyLt, pyGt, hlt, raise_check_failure]
  · intro hmin hmax
    simp [boundedValidateWith, hbase, min_check, max_check, hmin, hmax, PyVal.isNone,
      pyLt, pyGt]
  · intro hmin hmax
    simp [boundedValidateWith, hbase, min_check, max_check, hmin, hmax, PyVal.isNone,
      pyLt, pyGt]
  · intro hmin hmax
    simp [boundedValidateWith, hbase, min_check, max_check, hmin, hmax, PyVal.isNone]
  · intro g m hgmin hge hlt
    simp [boundedValidateWith, hbase, min_check, resolveBound, hgmin, hge, PyVal.isNone,
      pyLt, hlt, raise_check_failure]

/-- An IntField with a callable min bound reading the environment and no
max bound, used to witness C6. -/
def prodMinField : BoundedFieldData :=
  { toBase := { sampleBase with _allowed_types := PyVal.isIntLike },
    _min_value := .producer (fun e => .int e), _max_value := .value .none }

/-- C6 witness: the same callable-bounded field rejects 3 when the bound
producer yields 7 and accepts 3 when it yields 3 (equality at the bound),
demonstrating both strictness and per-call re-evaluation. -/
theorem C6_bounded_range_check_witness :
    boundedValidateWith (intFieldIC prodMinField.toBase) prodMinField 7 (.int 3) =
      .error (.invalidFieldValue "Value is less than min value" Option.none (.int 3)) ∧
    boundedValidateWith (intFieldIC prodMinField.toBase) prodMinField 3 (.int 3) =
      .ok (.int 3) := by
  constructor
  · exact (C6_bounded_range_check prodMinField (intFieldIC prodMinField.toBase) 7
      (.int 3) 3 rfl).2.2.2.2.2 (fun e => .int e) 7 rfl rfl (by decide)
  · exact (C6_bounded_range_check prodMinField (intFieldIC prodMinField.toBase) 3
      (.int 3) 3 rfl).2.2.1 rfl rfl

/-- C8: constructing a MultiEmbeddedListField with element_validators left
as None raises an unstructured TypeError (the validator check iterates over
None), not an InvalidFieldDefinition, and every successfully constructed
field holds an actual list of element validators. -/
theorem C8_none_validators_type_error :
    (∀ (choices : Option (List PyVal)) (max_items : Option Int) (ct : ContainerType)
        (default : DefaultSpec) (required : Bool) (fname : Option String),
      MultiEmbeddedListField.init .pynone choices max_items ct default required fname =
        .error (.typeError "NoneType object is not iterable")) ∧
    (∀ (arg : ValidatorsArg) (choices : Option (List PyVal)) (max_items : Option Int)
        (ct : ContainerType) (default : DefaultSpec) (required : Bool)
        (fname : Option String) (f : MELField),
      MultiEmbeddedListField.init arg choices max_items ct default required fname = .ok f →
      ∃ vs, arg = .list vs ∧ f.element_validators = vs) := by
  constructor
  · intro choices max_items ct default required fname
    rfl
  · intro arg choices max_items ct default required fname f h
    cases arg with
    | pynone => cases h
    | notAList v => cases h
    | list vs =>
      refine ⟨vs, rfl, ?_⟩
      simp only [MultiEmbeddedListField.init, MultiEmbeddedListField.validate_validator] at h
      cases hm : vs.mapM (fun v => BaseField.validate_validator (some v)) with
      | error e => rw [hm] at h; cases h
      | ok l => rw [hm] at h; cases h; rfl

/-- An empty multi-validator list field as produced by the constructor from
an empty validator list. -/
def melNoValidators : MELField :=
  { toBase := { _default := .value .none, _choices := Option.none, _required := false,
                _field_name := Option.none, _allowed_types := PyVal.isList },
    element_validators := [], max_items := Option.none, container_type := .list }

/-- C8 witness: a successful construction from the empty validator list
yields that list as the stored validators. -/
theorem C8_none_validators_type_error_witness :
    ∃ vs, ValidatorsArg.list ([] : List ElementArg) = ValidatorsArg.list vs ∧
      melNoValidators.element_validators = vs :=
  C8_none_validators_type_error.2 (.list []) Option.none Option.none .list
    (.value .none) false Option.none melNoValidators rfl

/-- C9: DateTimeField coercion catches only ValueError: an input that is
neither a datetime nor None nor a string makes the permissive parser raise
TypeError, which propagates out of validate unstructured, while an
unparseable string (a ValueError from the parser) is converted into the
structured value-invalid error carrying the field name and value. -/
theorem C9_datetime_uncaught_type_error (parseStr : String → Option Int)
    (f : BoundedFieldData) (e : Env) :
    (∀ v : PyVal, v.isDt = false → v.isStr = false → v.isNone = false →
      DateTimeField.validate parseStr f e v =
        .error (.typeError "Parser must be a string or character stream")) ∧
    (∀ s : String, parseStr s = Option.none →
      DateTimeField.validate parseStr f e (.str s) =
        .error (.invalidFieldValue "Value must be of type expected_type, passed type: value_type"
                 f.toBase._field_name (.str s))) := by
  constructor
  · intro v hdt hstr hnone
    cases v <;> simp_all [DateTimeField.validate, boundedValidateWith, validateWith,
      dtFieldIC, parserParse, PyVal.isNone, PyVal.isDt, PyVal.isStr]
  · intro s hs
    simp [DateTimeField.validate, boundedValidateWith, validateWith, dtFieldIC,
      parserParse, PyVal.isNone, PyVal.isDt, hs, raise_check_failure]

/-- A DateTimeField with no bounds used to witness C9. -/
def dtSampleField : BoundedFieldData :=
  { toBase := { sampleBase with _allowed_types := PyVal.isDt },
    _min_value := .value .none, _max_value := .value .none }

/-- C9 witness: with a parser accepting nothing, an integer input escapes as
TypeError while an unparseable string becomes the structured error. -/
theorem C9_datetime_uncaught_type_error_witness :
    DateTimeField.validate (fun _ => Option.none) dtSampleField 0 (.int 5) =
      .error (.typeError "Parser must be a string or character stream") ∧
    DateTimeField.validate (fun _ => Option.none) dtSampleField 0 (.str "x") =
      .error (.invalidFieldValue "Value must be of type expected_type, passed type: value_type"
               Option.none (.str "x")) := by
  constructor
  · exact (C9_datetime_uncaught_type_error (fun _ => Option.none) dtSampleField 0).1
      (.int 5) rfl rfl rfl
  · exact (C9_datetime_uncaught_type_error (fun _ => Option.none) dtSampleField 0).2
      "x" rfl

/-- C10: a choices argument passed to the DictField, MultiEmbeddedListField
or ListField constructor is silently discarded: the constructed descriptor
has choices None, two constructions differing only in choices are
identical, and hence validate behaves identically with or without it. -/
theorem C10_choices_discarded :
    (∀ (kv vv : Option ElementArg) (c1 c2 : Option (List PyVal)) (d : DefaultSpec)
        (r : Bool) (fn : Option String),
      DictField.init kv vv c1 d r fn = DictField.init kv vv c2 d r fn) ∧
    (∀ (kv vv : Option ElementArg) (c : Option (List PyVal)) (d : DefaultSpec) (r : Bool)
        (fn : Option String) (f : DictFieldData),
      DictField.init kv vv c d r fn = .ok f → f.toBase._choices = Option.none) ∧
    (∀ (ev : ValidatorsArg) (c1 c2 : Option (List PyVal)) (mi : Option Int)
        (ct : ContainerType) (d : DefaultSpec) (r : Bool) (fn : Option String),
      MultiEmbeddedListField.init ev c1 mi ct d r fn =
        MultiEmbeddedListField.init ev c2 mi ct d r fn) ∧
    (∀ (ev : ValidatorsArg) (c : Option (List PyVal)) (mi : Option Int) (ct : ContainerType)
        (d : DefaultSpec) (r : Bool) (fn : Option String) (f : MELField),
      MultiEmbeddedListField.init ev c mi ct d r fn = .ok f →
      f.toBase._choices = Option.none) ∧
    (∀ (ev : Option ElementArg) (c1 c2 : Option (List PyVal)) (mi : Option Int)
        (ct : ContainerType) (d : DefaultSpec) (r : Bool) (fn : Option String),
      ListField.init ev c1 mi ct d r fn = ListField.init ev c2 mi ct d r fn) ∧
    (∀ (kv vv : Option ElementArg) (c1 c2 : Option (List PyVal)) (d : DefaultSpec)
        (r : Bool) (fn : Option String) (f1 f2 : DictFieldData) (value : PyVal),
      DictField.init kv vv c1 d r fn = .ok f1 → DictField.init kv vv c2 d r fn = .ok f2 →
      DictField.validate f1 value = DictField.validate f2 value) ∧
    (∀ (ev : ValidatorsArg) (c1 c2 : Option (List PyVal)) (mi : Option Int)
        (ct : ContainerType) (d : DefaultSpec) (r : Bool) (fn : Option String)
        (f1 f2 : MELField) (value : PyVal),
      MultiEmbeddedListField.init ev c1 mi ct d r fn = .ok f1 →
      MultiEmbeddedListField.init ev c2 mi ct d r fn = .ok f2 →
      MultiEmbeddedListField.validate f1 value = MultiEmbeddedListField.validate f2 value) := by
  have hdict : ∀ (kv vv : Option ElementArg) (c1 c2 : Option (List PyVal)) (d : DefaultSpec)
      (r : Bool) (fn : Option String),
      DictField.init kv vv c1 d r fn = DictField.init kv vv c2 d r fn := by
    intro kv vv c1 c2 d r fn; rfl
  have hmel : ∀ (ev : ValidatorsArg) (c1 c2 : Option (List PyVal)) (mi : Option Int)
      (ct : ContainerType) (d : DefaultSpec) (r : Bool) (fn : Option String),
      MultiEmbeddedListField.init ev c1 mi ct d r fn =
        MultiEmbeddedListField.init ev c2 mi ct d r fn := by
    intro ev c1 c2 mi ct d r fn; rfl
  refine ⟨hdict, ?_, hmel, ?_, ?_, ?_, ?_⟩
  · intro kv vv c d r fn f h
    simp only [DictField.init] at h
    cases h1 : BaseField.validate_validator kv with
    | error e => rw [h1] at h; cases h
    | ok k2 =>
      rw [h1] at h
      cases h2 : BaseField.validate_validator vv with
      | error e => rw [h2] at h; cases h
      | ok v2 => rw [h2] at h; cases h; rfl
  · intro ev c mi ct d r fn f h
    simp only [MultiEmbeddedListField.init] at h
    cases h1 : MultiEmbeddedListField.validate_validator ev with
    | error e => rw [h1] at h; cases h
    | ok evs => rw [h1] at h; cases h; rfl
  · intro ev c1 c2 mi ct d r fn
    simp only [ListField.init]
    exact hmel _ c1 c2 mi ct d r fn
  · intro kv vv c1 c2 d r fn f1 f2 value h1 h2
    rw [hdict kv vv c1 c2 d r fn, h2] at h1
    cases h1
    rfl
  · intro ev c1 c2 mi ct d r fn f1 f2 value h1 h2
    rw [hmel ev c1 c2 mi ct d r fn, h2] at h1
    cases h1
    rfl

/-- The DictField produced by a construction that passed a choices list. -/
def dictNoValidators : DictFieldData :=
  { toBase := { _default := .value .none, _choices := Option.none, _required := false,
                _field_name := Option.none, _allowed_types := PyVal.isDict },
    key_validator := Option.none, value_validator := Option.none }

/-- C10 witness: constructing a DictField and a MultiEmbeddedListField with
an explicit choices list still yields a descriptor whose choices is None,
and validation therefore ignores the supplied choices. -/
theorem C10_choices_discarded_witness :
    dictNoValidators.toBase._choices = Option.none ∧
    melNoValidators.toBase._choices = Option.none ∧
    DictField.validate dictNoValidators (.dict []) =
      DictField.validate dictNoValidators (.dict []) := by
  refine ⟨?_, ?_, ?_⟩
  · exact C10_choices_discarded.2.1 Option.none Option.none (some [.int 1])
      (.value .none) false Option.none dictNoValidators rfl
  · exact C10_choices_discarded.2.2.2.1 (.list []) (some [.int 1]) Option.none .list
      (.value .none) false Option.none melNoValidators rfl
  · exact C10_choices_discarded.2.2.2.2.2.1 Option.none Option.none (some [.int 1])
      Option.none (.value .none) false Option.none dictNoValidators dictNoValidators
      (.dict []) rfl rfl

/-- The element validator rejected the given value with an
InvalidFieldValueException (the only exception the candidate loop catches). -/
def failsValueInvalid (ea : ElementArg) (x : PyVal) : Prop :=
  ∃ v, ea = .validator v ∧
    ∃ msg fld val, v.validate x = .error (.invalidFieldValue msg fld val)

/-- Among the declared candidates, every candidate before v rejects x with a
value-invalid error and v is the first to succeed, normalizing x to w. -/
def firstMatchAt (es : List ElementArg) (x w : PyVal) : Prop :=
  ∃ pre v post, es = pre ++ ElementArg.validator v :: post ∧
    (∀ ea ∈ pre, failsValueInvalid ea x) ∧ v.validate x = .ok w

theorem tryValidators_allFail (es : List ElementArg) (x : PyVal)
    (h : ∀ ea ∈ es, failsValueInvalid ea x) (names : List String) :
    tryValidators es names x =
      .ok (Option.none, names ++ es.map ElementArg.displayNameOf) := by
  induction es generalizing names with
  | nil => simp [tryValidators]
  | cons ea rest ih =>
    obtain ⟨v, hva, msg, fld, val, herr⟩ := h ea (List.mem_cons_self ea rest)
    subst hva
    simp only [tryValidators, herr]
    rw [ih (fun e he => h e (List.mem_cons_of_mem _ he)) (names ++ [v.displayName])]
    simp [ElementArg.displayNameOf]

theorem tryValidators_firstMatch (x w : PyVal) (pre : List ElementArg) (v : Validator)
    (post : List ElementArg) (hpre : ∀ ea ∈ pre, failsValueInvalid ea x)
    (hv : v.validate x = .ok w) (names : List String) :
    ∃ names2, tryValidators (pre ++ ElementArg.validator v :: post) names x =
      .ok (some w, names2) := by
  induction pre generalizing names with
  | nil => exact ⟨names, by simp [tryValidators, hv]⟩
  | cons ea rest ih =>
    obtain ⟨v0, hva, msg, fld, val, herr⟩ := hpre ea (List.mem_cons_self ea rest)
    subst hva
    obtain ⟨names2, hn⟩ :=
      ih (fun e he => hpre e (List.mem_cons_of_mem _ he)) (names ++ [v0.displayName])
    exact ⟨names2, by simp only [List.cons_append, tryValidators, herr]; exact hn⟩

theorem processElements_skip (f : MELField) (hct : f.container_type = .list)
    {ys ws : List PyVal}
    (h : List.Forall₂
      (fun x w => firstMatchAt f.element_validators x w ∧ w.truthy = true) ys ws) :
    ∀ (rest container : List PyVal) (names : List String),
      ∃ names2, processElements f (ys ++ rest) container names =
        processElements f rest (container ++ ws) names2 := by
  induction h with
  | nil => intro rest container names; exact ⟨names, by simp⟩
  | @cons x w ys' ws' hxw hys ih =>
    intro rest container names
    obtain ⟨⟨pre, v, post, hsplit, hpre, hv⟩, htr⟩ := hxw
    obtain ⟨names', htry⟩ := tryValidators_firstMatch x w pre v post hpre hv names
    rw [← hsplit] at htry
    obtain ⟨names2, hrec⟩ := ih rest (add_value f.container_type container w) names'
    have hadd : add_value f.container_type container w = container ++ [w] := by
      rw [hct]; rfl
    refine ⟨names2, ?_⟩
    simp only [List.cons_append, processElements, htry, htr, if_true]
    rw [hadd]
    rw [hadd, List.append_assoc] at hrec
    simpa using hrec

/-- An IntField with no bounds, no choices and not required. -/
def simpleIntField : BoundedFieldData :=
  { toBase := { _default := .value .none, _choices := Option.none, _required := false,
                _field_name := Option.none, _allowed_types := PyVal.isIntLike },
    _min_value := .value .none, _max_value := .value .none }

/-- The IntField above packaged as a candidate element validator. -/
def intValidator : Validator :=
  { displayName := "IntField", validate := fun v => IntField.validate simpleIntField 0 v }

/-- A MultiEmbeddedListField whose single candidate validator is the
IntField above. -/
def c1Field : MELField :=
  { toBase := { _default := .value .none, _choices := Option.none, _required := false,
                _field_name := Option.none, _allowed_types := PyVal.isList },
    element_validators := [.validator intValidator], max_items := Option.none,
    container_type := .list }

/-- C1 counterexample: on the input list containing only the integer 0, the
IntField candidate validates 0 successfully (normalizing it to 0), yet the
whole validation does not keep that output: because the successful output is
falsy, the loop raises the definition-invalid error (here with an empty
candidate enumeration, since no candidate rejected the element), refuting
the claim that the first succeeding candidate output is always kept. -/
theorem C1_multi_validator_resolution_counterexample :
    intValidator.validate (.int 0) = .ok (.int 0) ∧
    MultiEmbeddedListField.validate c1Field (.list [.int 0]) =
      .error (.invalidFieldDefinition
        ("Value must be one of the permitted types :" ++ String.intercalate ", " [])
        Option.none) :=
  ⟨rfl, rfl⟩

/-- C1 amended: candidates are tried in declared order; the first candidate
whose validate succeeds stops the iteration and its normalized output is
kept as the element value in the result container provided that output is
truthy (a falsy successful output instead aborts the whole validation with
the definition-invalid error, as the counterexample shows); if every
candidate rejects an element with a value-invalid error, the whole
validation fails with a definition-invalid error whose message enumerates
the display names of the candidates rejected so far (those of the failing
element, in declared order, appended to those accumulated from earlier
elements). -/
theorem C1_multi_validator_resolution (f : MELField)
    (hallowed : f.toBase._allowed_types = PyVal.isList)
    (hchoices : f.toBase._choices = Option.none)
    (hmax : f.max_items = Option.none)
    (hct : f.container_type = .list)
    (hne : f.element_validators ≠ []) :
    (∀ xs ws : List PyVal,
      List.Forall₂
        (fun x w => firstMatchAt f.element_validators x w ∧ w.truthy = true) xs ws →
      MultiEmbeddedListField.validate f (.list xs) = .ok (.list ws)) ∧
    (∀ (ys ws : List PyVal) (x : PyVal) (rest : List PyVal),
      List.Forall₂
        (fun y w => firstMatchAt f.element_validators y w ∧ w.truthy = true) ys ws →
      (∀ ea ∈ f.element_validators, failsValueInvalid ea x) →
      ∃ acc, MultiEmbeddedListField.validate f (.list (ys ++ x :: rest)) =
        .error (.invalidFieldDefinition
          ("Value must be one of the permitted types :" ++
            String.intercalate ", "
              (acc ++ f.element_validators.map ElementArg.displayNameOf))
          f.toBase._field_name)) := by
  have hic : ∀ xs : List PyVal,
      instance_check f.toBase (.list xs) = .ok (.list xs) := by
    intro xs; simp [instance_check, hallowed, PyVal.isList]
  have hempty : f.element_validators.isEmpty = false := by
    cases hev : f.element_validators with
    | nil => exact absurd hev hne
    | cons a l => rfl
  constructor
  · intro xs ws h
    obtain ⟨names2, hskip⟩ := processElements_skip f hct h [] [] []
    simp only [List.append_nil, List.nil_append, processElements] at hskip
    simp only [MultiEmbeddedListField.validate, hic, hempty, Bool.not_false, if_true,
      PyVal.toList, hskip, hmax]
    simp [validateWith, instance_check, hallowed, PyVal.isList, PyVal.isNone, hchoices]
  · intro ys ws x rest h hall
    obtain ⟨names', hskip⟩ := processElements_skip f hct h (x :: rest) [] []
    simp only [List.nil_append] at hskip
    have htry := tryValidators_allFail f.element_validators x hall names'
    refine ⟨names', ?_⟩
    simp only [MultiEmbeddedListField.validate, hic, hempty, Bool.not_false, if_true,
      PyVal.toList, hskip, processElements, htry]

/-- C1 amended witness: the concrete IntField-candidate list field maps the
singleton list of 5 to the singleton list of 5, and on the singleton list of
a string, which every candidate rejects, fails with the definition-invalid
error enumerating the IntField candidate name. -/
theorem C1_multi_validator_resolution_witness :
    MultiEmbeddedListField.validate c1Field (.list [.int 5]) = .ok (.list [.int 5]) ∧
    ∃ acc, MultiEmbeddedListField.validate c1Field (.list [.str "a"]) =
      .error (.invalidFieldDefinition
        ("Value must be one of the permitted types :" ++
          String.intercalate ", " (acc ++ ["IntField"])) Option.none) := by
  have hthm := C1_multi_validator_resolution c1Field rfl rfl rfl rfl
    (by intro h; simp [c1Field] at h)
  constructor
  · refine hthm.1 [.int 5] [.int 5] ?_
    refine List.Forall₂.cons ⟨?_, rfl⟩ List.Forall₂.nil
    exact ⟨[], intValidator, [], rfl, fun ea hea => absurd hea (List.not_mem_nil ea), rfl⟩
  · exact hthm.2 [] [] (.str "a") [] List.Forall₂.nil
      (by
        intro ea hea
        have : ea = ElementArg.validator intValidator := by
          simpa [c1Field] using hea
        subst this
        exact ⟨intValidator, rfl,
          "Value must be of type expected_type, passed type: value_type",
          Option.none, .str "a", rfl⟩)
